import Mathlib

/-!
Verification of the memtrack allocation-tracking registry (memtrack.c v0.9.0
plus memtrack_aligned_alloc.c v0.9.2).

The C code is shallowly embedded as explicit state passing.  Addresses are
natural numbers, with 0 standing for the C null pointer.  The platform
allocator is an oracle: each allocating entry point receives the address the
platform would return for its (single) allocation call, with 0 meaning the
platform reported failure.  The state records the registry, the stderr
diagnostics emitted so far, every platform free() call, every platform
allocation request, and the memtrack_errfunc / errno diagnostics channel.

Build-dependent behaviour (#ifdef DEBUG) is modelled by a `dbg : Bool`
parameter on the functions whose control flow differs between builds.  The
DEBUG-only provenance fields of MemTrackEntry are carried in every build by
the model; they are only observable through DEBUG-build readers, so this is
faithful for non-DEBUG claims.

Diagnostic messages are modelled by the fixed prefix of the format string the
C code passes to fprintf, without the trailing File/Line interpolation.
-/

namespace Memtrack

/-- SIZE_MAX for the LP64 size_t the code is compiled against. -/
def SIZE_MAX : Nat := 2 ^ 64 - 1

/-- Translation of the MemTrackEntry struct (memtrack.c lines 56-68).  The
fields after `size` exist only under #ifdef DEBUG; the model carries them in
every build. -/
structure MemTrackEntry where
  ptr : Nat
  size : Nat
  alloc_file : String
  alloc_line : Nat
  last_realloc_file : Option String
  last_realloc_line : Nat
  free_file : Option String
  free_line : Nat
  is_freed : Bool
deriving Repr, DecidableEq

/-- Modelled from the spec: the external key-value collaborator backing the
registry (section 6), represented as an association list from address key to
entry. -/
abbrev HashTable := List (Nat × MemTrackEntry)

/-- Modelled from the spec: `get(handle, key) -> value|not_found` of the
external key-value collaborator. -/
def ht_get (t : HashTable) (k : Nat) : Option MemTrackEntry :=
  match t with
  | [] => none
  | (k2, v2) :: rest => if k = k2 then some v2 else ht_get rest k

/-- Modelled from the spec: `set(handle, key, value, value_size)` of the
external key-value collaborator; replaces the binding for an existing key,
otherwise adds one.  Resource-exhaustion failure of the store is not
modelled (the set always succeeds). -/
def ht_set (t : HashTable) (k : Nat) (v : MemTrackEntry) : HashTable :=
  match t with
  | [] => [(k, v)]
  | (k2, v2) :: rest => if k2 = k then (k, v) :: rest else (k2, v2) :: ht_set rest k v

/-- Modelled from the spec: `delete(handle, key)` of the external key-value
collaborator. -/
def ht_delete (t : HashTable) (k : Nat) : HashTable :=
  match t with
  | [] => []
  | (k2, v2) :: rest => if k2 = k then ht_delete rest k else (k2, v2) :: ht_delete rest k

/-- Modelled from the spec: the mhashtable helper ht_is_power_of_two used by
the aligned-allocation family to validate the alignment argument. -/
def ht_is_power_of_two (n : Nat) : Bool := n != 0 && (n &&& (n - 1)) == 0

/-- The mutable process state touched by the embedded functions.  `entries`
is `none` while the C global memtrack_entries is still NULL.  `stderrLog`,
`freeCalls` and `allocCalls` record, oldest first, the diagnostics printed,
the platform free() calls, and the byte counts requested from the platform
allocator.  `errfunc` and `errno` form the diagnostics channel. -/
structure MTState where
  entries : Option HashTable
  stderrLog : List String
  freeCalls : List Nat
  allocCalls : List Nat
  errfunc : Option String
  errno : Nat
deriving Repr, DecidableEq

/-- Append one diagnostic line to the stderr log. -/
def logErr (s : MTState) (m : String) : MTState :=
  { s with stderrLog := s.stderrLog ++ [m] }

def msg_add_null : String := "ptr is null! Memory cannot be tracked!"
def msg_add_failed : String := "Failed to add entry to memory tracking."
def msg_no_entry_update : String := "No entry found to update! The memory might not be tracked."
def msg_no_entry_free : String := "No entry found to free! The memory might not be tracked."
def msg_size_zero : String := "No processing was done because the size is zero."
def msg_count_zero : String := "No processing was done because the count is zero."
def msg_overflow : String := "Memory allocation overflow."
def msg_alloc_failed : String := "Memory allocation failed."
def msg_realloc_zero : String := "Undefined behavior, do not use anymore. The memory block will be freed and NULL will be returned."
def msg_already_freed : String := "Memory already freed!"
def msg_no_entry_recalloc : String := "No entry found to recalloc! The memory might not be tracked."
def msg_get_size_null : String := "Cannot return value because ptr is NULL."
def msg_no_entry_get_size : String := "No entry found to get size! The memory might not be tracked."

/-- Translation of the static init() (memtrack.c lines 84-96): ht_create is
retried and assumed to succeed (its unrecoverable failure exits the
process); atexit registration is outside the modelled state. -/
def initRegistry (s : MTState) : MTState := { s with entries := some [] }

/-- Translation of memtrack_entry_add (memtrack.c lines 99-124). -/
def memtrack_entry_add (ptr size : Nat) (file : String) (line : Nat) (s : MTState) : MTState :=
  if ptr = 0 then logErr s msg_add_null
  else
    let s := if s.entries = none then initRegistry s else s
    let t := s.entries.getD []
    let e : MemTrackEntry :=
      { ptr := ptr, size := size, alloc_file := file, alloc_line := line,
        last_realloc_file := none, last_realloc_line := 0,
        free_file := none, free_line := 0, is_freed := false }
    { s with entries := some (ht_set t ptr e) }

/-- Translation of memtrack_entry_update (memtrack.c lines 127-176).  Note:
the relocating branch performs only the ht_set under the new address; the
source contains no ht_delete of the old key. -/
def memtrack_entry_update (old_ptr new_ptr0 new_size : Nat) (file : String) (line : Nat)
    (s : MTState) : MTState :=
  if old_ptr = 0 then memtrack_entry_add new_ptr0 new_size file line s
  else
    let new_ptr := if new_ptr0 = 0 then old_ptr else new_ptr0
    match s.entries with
    | none =>
        let s := logErr (initRegistry s) msg_no_entry_update
        memtrack_entry_add new_ptr new_size file line s
    | some t =>
        match ht_get t old_ptr with
        | none =>
            let s := logErr s msg_no_entry_update
            memtrack_entry_add new_ptr new_size file line s
        | some old_entry =>
            if old_ptr = new_ptr then
              { s with entries := some (ht_set t old_ptr
                  { old_entry with
                    ptr := new_ptr
                    size := new_size
                    last_realloc_file := some file
                    last_realloc_line := line }) }
            else
              { s with entries := some (ht_set t new_ptr
                  { ptr := new_ptr
                    size := new_size
                    last_realloc_file := some file
                    last_realloc_line := line
                    alloc_file := old_entry.alloc_file
                    alloc_line := old_entry.alloc_line
                    is_freed := old_entry.is_freed
                    free_file := old_entry.free_file
                    free_line := old_entry.free_line }) }

/-- Translation of memtrack_entry_free (memtrack.c lines 179-201): the
non-DEBUG build deletes the entry, the DEBUG build flags it released with
release provenance. -/
def memtrack_entry_free (dbg : Bool) (ptr : Nat) (file : String) (line : Nat)
    (s : MTState) : MTState :=
  if ptr = 0 then s
  else
    match s.entries with
    | none => logErr (initRegistry s) msg_no_entry_free
    | some t =>
        match ht_get t ptr with
        | none => logErr s msg_no_entry_free
        | some e =>
            if dbg then
              { s with entries := some (ht_set t ptr
                  { e with is_freed := true, free_file := some file, free_line := line }) }
            else
              { s with entries := some (ht_delete t ptr) }

/-- Translation of memtrack_free_without_lock (memtrack.c lines 291-327).
The `dbg` branch holds the #ifdef DEBUG guards: a missing entry is reported
and the pointer is still passed to the platform free; an entry already
flagged is_freed is reported and nothing else happens. -/
def memtrack_free_without_lock (dbg : Bool) (ptr : Nat) (file : String) (line : Nat)
    (s : MTState) : MTState :=
  if ptr = 0 then s
  else if dbg then
    match s.entries with
    | none =>
        let s := logErr (initRegistry s) msg_no_entry_free
        { s with freeCalls := s.freeCalls ++ [ptr] }
    | some t =>
        match ht_get t ptr with
        | none =>
            let s := logErr s msg_no_entry_free
            { s with freeCalls := s.freeCalls ++ [ptr] }
        | some e =>
            if e.is_freed then logErr s msg_already_freed
            else
              let s := { s with freeCalls := s.freeCalls ++ [ptr] }
              memtrack_entry_free dbg ptr file line s
  else
    let s := { s with freeCalls := s.freeCalls ++ [ptr] }
    memtrack_entry_free dbg ptr file line s

/-- Translation of memtrack_malloc_without_lock (memtrack.c lines 204-216).
`oracle` is the address the platform malloc returns (0 = failure). -/
def memtrack_malloc_without_lock (oracle size : Nat) (file : String) (line : Nat)
    (s : MTState) : Nat × MTState :=
  if size = 0 then (0, logErr s msg_size_zero)
  else
    let s := { s with allocCalls := s.allocCalls ++ [size] }
    if oracle = 0 then (0, logErr s msg_alloc_failed)
    else (oracle, memtrack_entry_add oracle size file line s)

/-- Translation of memtrack_calloc_without_lock (memtrack.c lines 227-245). -/
def memtrack_calloc_without_lock (oracle count size : Nat) (file : String) (line : Nat)
    (s : MTState) : Nat × MTState :=
  if count = 0 then (0, logErr s msg_count_zero)
  else if size = 0 then (0, logErr s msg_size_zero)
  else if SIZE_MAX / size < count then (0, logErr s msg_overflow)
  else
    let s := { s with allocCalls := s.allocCalls ++ [count * size] }
    if oracle = 0 then (0, logErr s msg_alloc_failed)
    else (oracle, memtrack_entry_add oracle (size * count) file line s)

/-- Translation of memtrack_realloc_without_lock (memtrack.c lines 256-280).
`oracle` is the address the platform realloc returns (0 = failure). -/
def memtrack_realloc_without_lock (dbg : Bool) (oracle ptr size : Nat) (file : String)
    (line : Nat) (s : MTState) : Nat × MTState :=
  if size = 0 then
    let s := logErr s msg_realloc_zero
    (0, memtrack_free_without_lock dbg ptr file line s)
  else
    let s := { s with allocCalls := s.allocCalls ++ [size] }
    if oracle = 0 then (0, logErr s msg_alloc_failed)
    else (oracle, memtrack_entry_update ptr oracle size file line s)

/-- Translation of memtrack_get_size_without_lock (memtrack.c lines 427-446). -/
def memtrack_get_size_without_lock (ptr : Nat) (file : String) (line : Nat)
    (s : MTState) : Nat × MTState :=
  if ptr = 0 then (0, logErr s msg_get_size_null)
  else
    match s.entries with
    | none => (0, logErr (initRegistry s) msg_no_entry_get_size)
    | some t =>
        match ht_get t ptr with
        | none => (0, logErr s msg_no_entry_get_size)
        | some e => (e.size, s)

/-- Translation of memtrack_malloc_array_without_lock (memtrack.c lines
376-385): zero size rejected, then the overflow guard `count > SIZE_MAX /
size`, then delegation to memtrack_malloc_without_lock. -/
def memtrack_malloc_array_without_lock (oracle count size : Nat) (file : String) (line : Nat)
    (s : MTState) : Nat × MTState :=
  if size = 0 then (0, logErr s msg_size_zero)
  else if SIZE_MAX / size < count then (0, logErr s msg_overflow)
  else memtrack_malloc_without_lock oracle (count * size) file line s

/-- Translation of memtrack_realloc_array_without_lock (memtrack.c lines
401-411). -/
def memtrack_realloc_array_without_lock (dbg : Bool) (oracle ptr count size : Nat)
    (file : String) (line : Nat) (s : MTState) : Nat × MTState :=
  if size = 0 then
    let s := logErr s msg_realloc_zero
    (0, memtrack_free_without_lock dbg ptr file line s)
  else if SIZE_MAX / size < count then (0, logErr s msg_overflow)
  else memtrack_realloc_without_lock dbg oracle ptr (count * size) file line s

/-- Translation of memtrack_recalloc_without_lock (memtrack.c lines
337-365).  The memset over the newly extended byte range acts on heap
contents, which the state model does not carry; the byte-level effect is
modelled separately by memtrack_recalloc_fill. -/
def memtrack_recalloc_without_lock (dbg : Bool) (oracle ptr count size : Nat)
    (file : String) (line : Nat) (s : MTState) : Nat × MTState :=
  if ptr = 0 then memtrack_calloc_without_lock oracle count size file line s
  else
    match s.entries with
    | none =>
        let s := logErr (initRegistry s) msg_no_entry_recalloc
        memtrack_realloc_array_without_lock dbg oracle ptr count size file line s
    | some _ =>
        let r := memtrack_get_size_without_lock ptr file line s
        if r.1 = 0 then
          let s := memtrack_entry_free dbg ptr file line r.2
          if count ≠ 0 ∧ size ≠ 0 then memtrack_calloc_without_lock oracle count size file line s
          else (0, s)
        else memtrack_realloc_array_without_lock dbg oracle ptr count size file line r.2

/-- Lock-acquiring facade form of memtrack_malloc (memtrack.c lines
219-224); memtrack_lock/memtrack_unlock are no-ops on the sequential state. -/
def memtrack_malloc (oracle size : Nat) (file : String) (line : Nat)
    (s : MTState) : Nat × MTState :=
  memtrack_malloc_without_lock oracle size file line s

/-- Lock-acquiring facade form of memtrack_calloc (memtrack.c lines 248-253). -/
def memtrack_calloc (oracle count size : Nat) (file : String) (line : Nat)
    (s : MTState) : Nat × MTState :=
  memtrack_calloc_without_lock oracle count size file line s

/-- Lock-acquiring facade form of memtrack_realloc (memtrack.c lines 283-288). -/
def memtrack_realloc (dbg : Bool) (oracle ptr size : Nat) (file : String) (line : Nat)
    (s : MTState) : Nat × MTState :=
  memtrack_realloc_without_lock dbg oracle ptr size file line s

/-- Lock-acquiring facade form of memtrack_free (memtrack.c lines 330-334). -/
def memtrack_free (dbg : Bool) (ptr : Nat) (file : String) (line : Nat)
    (s : MTState) : MTState :=
  memtrack_free_without_lock dbg ptr file line s

/-- Lock-acquiring facade form of memtrack_recalloc (memtrack.c lines 368-373). -/
def memtrack_recalloc (dbg : Bool) (oracle ptr count size : Nat) (file : String) (line : Nat)
    (s : MTState) : Nat × MTState :=
  memtrack_recalloc_without_lock dbg oracle ptr count size file line s

/-- Lock-acquiring facade form of memtrack_get_size (memtrack.c lines 449-454). -/
def memtrack_get_size (ptr : Nat) (file : String) (line : Nat)
    (s : MTState) : Nat × MTState :=
  memtrack_get_size_without_lock ptr file line s

/-- Translation of memtrack_calloc_array (memtrack.c lines 396-398): a pure
delegation to memtrack_calloc. -/
def memtrack_calloc_array (oracle count size : Nat) (file : String) (line : Nat)
    (s : MTState) : Nat × MTState :=
  memtrack_calloc oracle count size file line s

/-- Translation of memtrack_recalloc_array (memtrack.c lines 422-424): a
pure delegation to memtrack_recalloc. -/
def memtrack_recalloc_array (dbg : Bool) (oracle ptr count size : Nat)
    (file : String) (line : Nat) (s : MTState) : Nat × MTState :=
  memtrack_recalloc dbg oracle ptr count size file line s

/-- sizeof(void*) on the LP64 platform the code targets. -/
def sizeof_voidp : Nat := 8

def EINVAL : Nat := 22
def ENOMEM : Nat := 12

def msg_align_pow2 : String := "Alignment must be a power of 2."
def msg_align_small : String := "Alignment must be greater than or equal to sizeof(void*)."
def msg_size_lt_align : String := "Size must be greater than or equal to alignment."
def msg_size_mult_align : String := "Size must be a multiple of alignment."

/-- Translation of memtrack_aligned_alloc_without_entry_add
(memtrack_aligned_alloc.c lines 72-114).  Every failing branch assigns
memtrack_errfunc before returning NULL; all but the power-of-two branch also
assign errno. -/
def memtrack_aligned_alloc_without_entry_add (oracle alignment size : Nat)
    (file : String) (line : Nat) (s : MTState) : Nat × MTState :=
  if ¬ ht_is_power_of_two alignment then
    (0, { logErr s msg_align_pow2 with errfunc := some "memtrack_aligned_alloc" })
  else if alignment < sizeof_voidp then
    (0, { logErr s msg_align_small with errno := EINVAL, errfunc := some "memtrack_aligned_alloc" })
  else if size = 0 then
    (0, { logErr s msg_size_zero with errno := EINVAL, errfunc := some "memtrack_aligned_alloc" })
  else if size < alignment then
    (0, { logErr s msg_size_lt_align with errno := EINVAL, errfunc := some "memtrack_aligned_alloc" })
  else if size % alignment ≠ 0 then
    (0, { logErr s msg_size_mult_align with errno := EINVAL, errfunc := some "memtrack_aligned_alloc" })
  else
    let s := { s with allocCalls := s.allocCalls ++ [size] }
    if oracle = 0 then
      (0, { logErr s msg_alloc_failed with errno := ENOMEM, errfunc := some "memtrack_aligned_alloc" })
    else (oracle, s)

/-- Byte-level model of the platform realloc used by
memtrack_recalloc_without_lock: the new block keeps the old contents on the
overlap and holds unspecified bytes (drawn from `junk`) beyond them. -/
def platform_realloc (old : List Nat) (newSize : Nat) (junk : Nat → Nat) : List Nat :=
  (List.range newSize).map (fun i => if i < old.length then old.getD i 0 else junk i)

/-- memset(block + start, 0, len) on a byte list. -/
def memset_zero (block : List Nat) (start len : Nat) : List Nat :=
  (List.range block.length).map
    (fun i => if start ≤ i ∧ i < start + len then 0 else block.getD i 0)

/-- Byte-level translation of the tail of memtrack_recalloc_without_lock
(memtrack.c lines 357-364): resize the block to new_size, then zero exactly
the range from the tracked old_size up to new_size when it grew. -/
def memtrack_recalloc_fill (old : List Nat) (old_size new_size : Nat)
    (junk : Nat → Nat) : List Nat :=
  let new_block := platform_realloc old new_size junk
  if old_size < new_size then memset_zero new_block old_size (new_size - old_size)
  else new_block

/-- Round-trip scenario harness: allocate n bytes (platform returns p),
query the size, resize to m bytes (platform returns p2), query the size
under the new address, release it, query again.  Returns the five observed
values. -/
def roundTrip (s : MTState) (n m p p2 : Nat) (f : String) :
    Nat × Nat × Nat × Nat × Nat :=
  let r1 := memtrack_malloc p n f 1 s
  let g1 := memtrack_get_size r1.1 f 2 r1.2
  let r2 := memtrack_realloc false p2 r1.1 m f 3 g1.2
  let g2 := memtrack_get_size r2.1 f 4 r2.2
  let s5 := memtrack_free false r2.1 f 5 g2.2
  let g3 := memtrack_get_size r2.1 f 6 s5
  (r1.1, g1.1, r2.1, g2.1, g3.1)

/-- A state in which the registry has been constructed and is empty, with a
clean diagnostics channel. -/
def stEmpty : MTState :=
  { entries := some [], stderrLog := [], freeCalls := [], allocCalls := [],
    errfunc := none, errno := 0 }

/-- A live 16-byte allocation at address 1 used by concrete instances. -/
def entryOne : MemTrackEntry :=
  { ptr := 1, size := 16, alloc_file := "a.c", alloc_line := 10,
    last_realloc_file := none, last_realloc_line := 0,
    free_file := none, free_line := 0, is_freed := false }

/-- An entry at address 7 already flagged released (DEBUG builds), with its
first-release provenance recorded. -/
def entryFreed : MemTrackEntry :=
  { ptr := 7, size := 32, alloc_file := "a.c", alloc_line := 12,
    last_realloc_file := none, last_realloc_line := 0,
    free_file := some "b.c", free_line := 9, is_freed := true }

/-- A state tracking exactly the live allocation entryOne. -/
def stOne : MTState :=
  { entries := some [(1, entryOne)], stderrLog := [], freeCalls := [],
    allocCalls := [], errfunc := none, errno := 0 }

/-- A state tracking exactly the already-released entryFreed. -/
def stFreed : MTState :=
  { entries := some [(7, entryFreed)], stderrLog := [], freeCalls := [],
    allocCalls := [], errfunc := none, errno := 0 }

/-- The entry written for an allocation entry obtained in-place by a resize:
size replaced and resize provenance recorded. -/
def resizedEntry (e : MemTrackEntry) (p ns : Nat) (f : String) (l : Nat) : MemTrackEntry :=
  { e with ptr := p, size := ns, last_realloc_file := some f, last_realloc_line := l }

theorem ht_get_set_self (t : HashTable) (k : Nat) (v : MemTrackEntry) :
    ht_get (ht_set t k v) k = some v := by
  induction t with
  | nil => simp [ht_set, ht_get]
  | cons hd tl ih =>
      obtain ⟨k2, v2⟩ := hd
      by_cases h : k2 = k
      · simp [ht_set, ht_get, h]
      · simp [ht_set, ht_get, h, Ne.symm h, ih]

theorem ht_get_set_ne (t : HashTable) (k j : Nat) (v : MemTrackEntry) (h : j ≠ k) :
    ht_get (ht_set t k v) j = ht_get t j := by
  induction t with
  | nil => simp [ht_set, ht_get, h]
  | cons hd tl ih =>
      obtain ⟨k2, v2⟩ := hd
      by_cases h2 : k2 = k
      · subst h2
        simp [ht_set, ht_get, h]
      · by_cases h3 : j = k2
        · simp [ht_set, ht_get, h2, h3]
        · simp [ht_set, ht_get, h2, h3, ih]

theorem ht_get_delete_self (t : HashTable) (k : Nat) :
    ht_get (ht_delete t k) k = none := by
  induction t with
  | nil => simp [ht_delete, ht_get]
  | cons hd tl ih =>
      obtain ⟨k2, v2⟩ := hd
      by_cases h : k2 = k
      · simp [ht_delete, h, ih]
      · simp [ht_delete, ht_get, h, Ne.symm h, ih]

theorem ht_get_set_isSome (t : HashTable) (k j : Nat) (v : MemTrackEntry)
    (h : (ht_get t k).isSome) :
    (ht_get (ht_set t k v) j).isSome = (ht_get t j).isSome := by
  by_cases hj : j = k
  · subst hj
    rw [ht_get_set_self]
    simpa using h.symm
  · rw [ht_get_set_ne t k j v hj]

theorem entry_add_errfunc (ptr size : Nat) (f : String) (l : Nat) (s : MTState) :
    (memtrack_entry_add ptr size f l s).errfunc = s.errfunc := by
  unfold memtrack_entry_add
  split_ifs <;> simp [logErr, initRegistry]

/-- C10: memtrack_calloc_array returns exactly the result (value and state)
of memtrack_calloc on the same arguments, and memtrack_recalloc_array
returns exactly the result of memtrack_recalloc: both array variants are
pure delegations that add no checks of their own. -/
theorem calloc_array_recalloc_array_delegate (dbg : Bool) (oracle ptr count size : Nat)
    (f : String) (l : Nat) (s : MTState) :
    memtrack_calloc_array oracle count size f l s = memtrack_calloc oracle count size f l s ∧
    memtrack_recalloc_array dbg oracle ptr count size f l s =
      memtrack_recalloc dbg oracle ptr count size f l s :=
  ⟨rfl, rfl⟩

/-- C5: whenever the mathematical product count * size exceeds SIZE_MAX, the
guard count > SIZE_MAX / size fires, memtrack_malloc_array_without_lock
returns null having only reported overflow, the platform allocator is not
invoked, and memtrack_calloc_without_lock behaves the same way. -/
theorem malloc_array_overflow_guard (oracle count size : Nat) (f : String) (l : Nat)
    (s : MTState) (hc : count ≤ SIZE_MAX) (hsz : size ≤ SIZE_MAX)
    (h : SIZE_MAX < count * size) :
    SIZE_MAX / size < count ∧
    memtrack_malloc_array_without_lock oracle count size f l s = (0, logErr s msg_overflow) ∧
    (memtrack_malloc_array_without_lock oracle count size f l s).2.allocCalls = s.allocCalls ∧
    memtrack_calloc_without_lock oracle count size f l s = (0, logErr s msg_overflow) := by
  have hs0 : size ≠ 0 := by
    rintro rfl
    simp at h
  have hc0 : count ≠ 0 := by
    rintro rfl
    simp at h
  have hguard : SIZE_MAX / size < count :=
    (Nat.div_lt_iff_lt_mul (Nat.pos_of_ne_zero hs0)).mpr h
  refine ⟨hguard, ?_, ?_, ?_⟩ <;>
    simp [memtrack_malloc_array_without_lock, memtrack_calloc_without_lock, hs0, hc0,
      hguard, logErr]

/-- C1 (code evaluated at the failing input): a relocating registry update
(old address 1 tracked, new address 2, new size 32) inserts the new entry
carrying forward the allocation provenance of the old one, but the entry
keyed by the old address 1 is still in the registry afterwards — the source
contains no removal of the old key. -/
theorem entry_update_relocation_keeps_old_entry :
    (memtrack_entry_update 1 2 32 "b.c" 20 stOne).entries =
      some [(1, entryOne), (2, ⟨2, 32, "a.c", 10, some "b.c", 20, none, 0, false⟩)] ∧
    ht_get ((memtrack_entry_update 1 2 32 "b.c" 20 stOne).entries.getD []) 1 =
      some entryOne := by
  constructor <;> rfl

/-- C3 counterexample: in a DEBUG build, releasing the non-null pointer 1,
for which the registry holds no entry, reports the condition but still
passes the pointer to the platform free — the operation is not rejected
without action as the claim states. -/
theorem free_untracked_debug_calls_platform_free :
    (memtrack_free_without_lock true 1 "t.c" 5 stEmpty).freeCalls = [1] ∧
    (memtrack_free_without_lock true 1 "t.c" 5 stEmpty).stderrLog = [msg_no_entry_free] := by
  constructor <;> rfl

/-- C3 (amended): in DEBUG builds, releasing a non-null pointer with no
registry entry reports the condition and still invokes the platform free on
the pointer, leaving the registry untouched; only releasing an address whose
entry is already marked released is rejected with a report and no further
action. -/
theorem free_debug_untracked_frees_double_release_rejected (s : MTState) (t : HashTable)
    (ptr : Nat) (f : String) (l : Nat) (hp : ptr ≠ 0) (hs : s.entries = some t) :
    (ht_get t ptr = none →
      memtrack_free_without_lock true ptr f l s =
        { logErr s msg_no_entry_free with freeCalls := s.freeCalls ++ [ptr] }) ∧
    (∀ e, ht_get t ptr = some e → e.is_freed = true →
      memtrack_free_without_lock true ptr f l s = logErr s msg_already_freed) := by
  constructor
  · intro hn
    simp [memtrack_free_without_lock, hp, hs, hn, logErr]
  · intro e he hf
    simp [memtrack_free_without_lock, hp, hs, he, hf]

/-- C3 amended witness: freeing untracked address 1 in the empty registry
frees it anyway; freeing the already-released address 7 only reports. -/
theorem free_debug_untracked_frees_double_release_rejected_witness :
    memtrack_free_without_lock true 1 "t.c" 5 stEmpty =
      { logErr stEmpty msg_no_entry_free with freeCalls := [1] } ∧
    memtrack_free_without_lock true 7 "t.c" 6 stFreed = logErr stFreed msg_already_freed := by
  constructor
  · have h := (free_debug_untracked_frees_double_release_rejected stEmpty [] 1 "t.c" 5
      (by decide) rfl).1 rfl
    simpa [stEmpty, logErr] using h
  · exact (free_debug_untracked_frees_double_release_rejected stFreed [(7, entryFreed)] 7
      "t.c" 6 (by decide) rfl).2 entryFreed (by decide) (by decide)

/-- C7: in DEBUG builds, releasing an address whose entry is already marked
released only reports the double release: the state change is exactly the
stderr report, the registry table is unchanged, no platform free happens,
and the entry is still present with its first-release provenance intact. -/
theorem free_debug_double_release_preserves_entry (s : MTState) (t : HashTable)
    (e : MemTrackEntry) (ptr : Nat) (f : String) (l : Nat)
    (hp : ptr ≠ 0) (hs : s.entries = some t) (he : ht_get t ptr = some e)
    (hf : e.is_freed = true) :
    memtrack_free_without_lock true ptr f l s = logErr s msg_already_freed ∧
    (memtrack_free_without_lock true ptr f l s).entries = some t ∧
    (memtrack_free_without_lock true ptr f l s).freeCalls = s.freeCalls ∧
    ht_get ((memtrack_free_without_lock true ptr f l s).entries.getD []) ptr = some e := by
  have h1 : memtrack_free_without_lock true ptr f l s = logErr s msg_already_freed := by
    simp [memtrack_free_without_lock, hp, hs, he, hf]
  refine ⟨h1, ?_, ?_, ?_⟩ <;> simp [h1, logErr, hs, he]

/-- C7 witness: the double release of address 7 in stFreed changes nothing
but the stderr log and entryFreed keeps free_file "b.c" line 9. -/
theorem free_debug_double_release_preserves_entry_witness :
    memtrack_free_without_lock true 7 "t.c" 8 stFreed = logErr stFreed msg_already_freed ∧
    ht_get ((memtrack_free_without_lock true 7 "t.c" 8 stFreed).entries.getD []) 7 =
      some entryFreed :=
  ⟨(free_debug_double_release_preserves_entry stFreed [(7, entryFreed)] entryFreed 7 "t.c" 8
      (by decide) rfl (by decide) (by decide)).1,
   (free_debug_double_release_preserves_entry stFreed [(7, entryFreed)] entryFreed 7 "t.c" 8
      (by decide) rfl (by decide) (by decide)).2.2.2⟩

/-- C5 witness: for count = size = 2 ^ 32 the product exceeds SIZE_MAX and
the array allocator returns null with only the overflow report. -/
theorem malloc_array_overflow_guard_witness :
    SIZE_MAX < 2 ^ 32 * 2 ^ 32 ∧
    memtrack_malloc_array_without_lock 0 (2 ^ 32) (2 ^ 32) "t.c" 1 stEmpty =
      (0, logErr stEmpty msg_overflow) :=
  ⟨by decide,
   (malloc_array_overflow_guard 0 (2 ^ 32) (2 ^ 32) "t.c" 1 stEmpty (by decide) (by decide)
      (by decide)).2.1⟩

/-- C9: updating with a null new pointer while the old pointer is tracked
treats the null as the old pointer: the one entry is rewritten in place with
the new size and the resize provenance, and the set of tracked addresses is
unchanged — nothing is inserted and nothing is removed. -/
theorem entry_update_null_new_ptr_updates_in_place (s : MTState) (t : HashTable)
    (e : MemTrackEntry) (old_ptr new_size : Nat) (f : String) (l : Nat)
    (hp : old_ptr ≠ 0) (hs : s.entries = some t) (he : ht_get t old_ptr = some e) :
    memtrack_entry_update old_ptr 0 new_size f l s =
      { s with entries := some (ht_set t old_ptr (resizedEntry e old_ptr new_size f l)) } ∧
    ∀ j, (ht_get (ht_set t old_ptr (resizedEntry e old_ptr new_size f l)) j).isSome =
      (ht_get t j).isSome := by
  constructor
  · simp [memtrack_entry_update, hp, hs, he, resizedEntry]
  · intro j
    exact ht_get_set_isSome t old_ptr j _ (by simp [he])

/-- C9 witness: updating address 1 with a null new pointer and size 24
rewrites the single entry in place; address 2 is tracked neither before nor
after. -/
theorem entry_update_null_new_ptr_updates_in_place_witness :
    memtrack_entry_update 1 0 24 "c.c" 3 stOne =
      { stOne with entries := some [(1, resizedEntry entryOne 1 24 "c.c" 3)] } ∧
    (ht_get (ht_set [(1, entryOne)] 1 (resizedEntry entryOne 1 24 "c.c" 3)) 2).isSome =
      (ht_get [(1, entryOne)] 2).isSome := by
  have h := entry_update_null_new_ptr_updates_in_place stOne [(1, entryOne)] entryOne 1 24
    "c.c" 3 (by decide) rfl (by decide)
  exact ⟨h.1, h.2 2⟩

/-- C2: in the default (non-DEBUG) build, resizing a tracked pointer to size
zero is exactly a release followed by returning null: the result state is
the one memtrack_free_without_lock produces, the platform free receives the
pointer, and the registry holds no entry for it afterwards. -/
theorem realloc_zero_frees_and_untracks (oracle ptr : Nat) (f : String) (l : Nat)
    (s : MTState) (t : HashTable) (e : MemTrackEntry) (hp : ptr ≠ 0)
    (hs : s.entries = some t) (he : ht_get t ptr = some e) :
    memtrack_realloc_without_lock false oracle ptr 0 f l s =
      (0, memtrack_free_without_lock false ptr f l (logErr s msg_realloc_zero)) ∧
    (memtrack_realloc_without_lock false oracle ptr 0 f l s).2.freeCalls =
      s.freeCalls ++ [ptr] ∧
    ht_get ((memtrack_realloc_without_lock false oracle ptr 0 f l s).2.entries.getD []) ptr =
      none := by
  refine ⟨rfl, ?_, ?_⟩ <;>
    simp [memtrack_realloc_without_lock, memtrack_free_without_lock, memtrack_entry_free,
      hp, hs, he, logErr, ht_get_delete_self]

/-- C2 witness: realloc to size zero on the tracked address 1 frees it and
removes its entry. -/
theorem realloc_zero_frees_and_untracks_witness :
    (memtrack_realloc_without_lock false 5 1 0 "t.c" 4 stOne).2.freeCalls = [1] ∧
    ht_get ((memtrack_realloc_without_lock false 5 1 0 "t.c" 4 stOne).2.entries.getD []) 1 =
      none := by
  have h := realloc_zero_frees_and_untracks 5 1 "t.c" 4 stOne [(1, entryOne)] entryOne
    (by decide) rfl (by decide)
  exact ⟨by simpa [stOne] using h.2.1, h.2.2⟩

/-- C8 counterexample: the facade operation memtrack_malloc on the failing
input size = 0 returns its failure value null after only reporting to
stderr; the diagnostics channel memtrack_errfunc is not set. -/
theorem malloc_failure_leaves_errfunc_unset :
    (memtrack_malloc 0 0 "t.c" 1 stEmpty).1 = 0 ∧
    (memtrack_malloc 0 0 "t.c" 1 stEmpty).2.errfunc = none ∧
    (memtrack_malloc 0 0 "t.c" 1 stEmpty).2.stderrLog = [msg_size_zero] :=
  ⟨rfl, rfl, rfl⟩

/-- C8 (amended): the aligned-allocation family sets memtrack_errfunc to the
failing operation name before returning its null failure value, on every
failing input; the core memtrack.c facade (memtrack_malloc) reports its
failures to stderr only and never changes memtrack_errfunc. -/
theorem aligned_alloc_failure_sets_errfunc (oracle alignment size : Nat) (f : String)
    (l : Nat) (s : MTState) :
    ((memtrack_aligned_alloc_without_entry_add oracle alignment size f l s).1 = 0 →
      (memtrack_aligned_alloc_without_entry_add oracle alignment size f l s).2.errfunc =
        some "memtrack_aligned_alloc") ∧
    (memtrack_malloc oracle size f l s).2.errfunc = s.errfunc := by
  constructor
  · intro h
    unfold memtrack_aligned_alloc_without_entry_add at h ⊢
    split_ifs at h ⊢ with h1 h2 h3 h4 h5 h6 <;> simp_all [logErr]
  · by_cases hz : size = 0
    · simp [memtrack_malloc, memtrack_malloc_without_lock, hz, logErr]
    · by_cases ho : oracle = 0
      · simp [memtrack_malloc, memtrack_malloc_without_lock, hz, ho, logErr]
      · simp [memtrack_malloc, memtrack_malloc_without_lock, hz, ho, entry_add_errfunc]

/-- C8 amended witness: a non-power-of-two alignment makes the aligned
allocator fail with memtrack_errfunc set, while the failing memtrack_malloc
of size 0 leaves the clean channel clean. -/
theorem aligned_alloc_failure_sets_errfunc_witness :
    (memtrack_aligned_alloc_without_entry_add 0 3 8 "t.c" 1 stEmpty).2.errfunc =
      some "memtrack_aligned_alloc" ∧
    (memtrack_malloc 0 0 "t.c" 2 stEmpty).2.errfunc = stEmpty.errfunc :=
  ⟨(aligned_alloc_failure_sets_errfunc 0 3 8 "t.c" 1 stEmpty).1 (by decide),
   (aligned_alloc_failure_sets_errfunc 0 3 0 "t.c" 2 stEmpty).2⟩

theorem range_map_getD (g : Nat → Nat) (n i : Nat) (h : i < n) :
    ((List.range n).map g).getD i 0 = g i := by
  rw [List.getD_eq_getElem?_getD, List.getElem?_map, List.getElem?_range h]
  rfl

/-- C4: when the registry records old_size bytes for the block and the
overflow-checked product count * size exceeds it, the successful zero-resize
produces a block of count * size bytes whose first old_size bytes are the
original contents unchanged — never re-zeroed — and whose bytes from
old_size up to count * size are all zero, whatever unspecified bytes the
platform realloc put there. -/
theorem recalloc_extends_with_zeros (old : List Nat) (count size : Nat) (junk : Nat → Nat)
    (hgrow : old.length < count * size) (hof : count * size ≤ SIZE_MAX) :
    (memtrack_recalloc_fill old old.length (count * size) junk).length = count * size ∧
    (∀ i, i < old.length →
      (memtrack_recalloc_fill old old.length (count * size) junk).getD i 0 = old.getD i 0) ∧
    (∀ i, old.length ≤ i → i < count * size →
      (memtrack_recalloc_fill old old.length (count * size) junk).getD i 0 = 0) := by
  have hfill : memtrack_recalloc_fill old old.length (count * size) junk =
      memset_zero (platform_realloc old (count * size) junk) old.length
        (count * size - old.length) := by
    simp [memtrack_recalloc_fill, hgrow]
  have hlenr : (platform_realloc old (count * size) junk).length = count * size := by
    simp [platform_realloc]
  refine ⟨?_, ?_, ?_⟩
  · rw [hfill]
    simp [memset_zero, hlenr]
  · intro i hi
    have hiN : i < count * size := lt_trans hi hgrow
    rw [hfill]
    unfold memset_zero
    rw [hlenr, range_map_getD _ (count * size) i hiN]
    have hnot : ¬ (old.length ≤ i ∧ i < old.length + (count * size - old.length)) := by
      intro hcon
      exact absurd hcon.1 (not_le.mpr hi)
    rw [if_neg hnot]
    unfold platform_realloc
    rw [range_map_getD _ (count * size) i hiN, if_pos hi]
  · intro i hLi hiN
    rw [hfill]
    unfold memset_zero
    rw [hlenr, range_map_getD _ (count * size) i hiN]
    have hcond : old.length ≤ i ∧ i < old.length + (count * size - old.length) :=
      ⟨hLi, by rwa [Nat.add_sub_cancel' (le_of_lt hgrow)]⟩
    rw [if_pos hcond]

/-- C4 witness: growing the two tracked bytes 5, 6 to a 2 x 2 block keeps
byte 1 equal to 6 and zeroes byte 3 even though the platform filled it with
junk 9. -/
theorem recalloc_extends_with_zeros_witness :
    (memtrack_recalloc_fill [5, 6] 2 4 (fun _ => 9)).getD 1 0 = 6 ∧
    (memtrack_recalloc_fill [5, 6] 2 4 (fun _ => 9)).getD 3 0 = 0 :=
  ⟨(recalloc_extends_with_zeros [5, 6] 2 2 (fun _ => 9) (by decide) (by decide)).2.1 1
      (by decide),
   (recalloc_extends_with_zeros [5, 6] 2 2 (fun _ => 9) (by decide) (by decide)).2.2 3
      (by decide) (by decide)⟩

theorem entry_add_spec (ptr size : Nat) (f : String) (l : Nat) (s : MTState) (hp : ptr ≠ 0) :
    ∃ t, (memtrack_entry_add ptr size f l s).entries = some t ∧
      ht_get t ptr = some ⟨ptr, size, f, l, none, 0, none, 0, false⟩ := by
  unfold memtrack_entry_add
  by_cases h0 : s.entries = none
  · refine ⟨ht_set [] ptr ⟨ptr, size, f, l, none, 0, none, 0, false⟩, ?_,
      ht_get_set_self _ _ _⟩
    simp [hp, h0, initRegistry]
  · refine ⟨ht_set (s.entries.getD []) ptr ⟨ptr, size, f, l, none, 0, none, 0, false⟩, ?_,
      ht_get_set_self _ _ _⟩
    simp [hp, h0]

theorem malloc_success_tracks (oracle size : Nat) (f : String) (l : Nat) (s : MTState)
    (ho : oracle ≠ 0) (hs : size ≠ 0) :
    (memtrack_malloc oracle size f l s).1 = oracle ∧
    (memtrack_malloc oracle size f l s).2 =
      memtrack_entry_add oracle size f l { s with allocCalls := s.allocCalls ++ [size] } := by
  constructor <;> simp [memtrack_malloc, memtrack_malloc_without_lock, ho, hs]

theorem get_size_hit (ptr : Nat) (f : String) (l : Nat) (s : MTState) (t : HashTable)
    (e : MemTrackEntry) (hp : ptr ≠ 0) (hs : s.entries = some t)
    (he : ht_get t ptr = some e) :
    memtrack_get_size ptr f l s = (e.size, s) := by
  simp [memtrack_get_size, memtrack_get_size_without_lock, hp, hs, he]

theorem get_size_miss (ptr : Nat) (f : String) (l : Nat) (s : MTState) (t : HashTable)
    (hp : ptr ≠ 0) (hs : s.entries = some t) (hn : ht_get t ptr = none) :
    memtrack_get_size ptr f l s = (0, logErr s msg_no_entry_get_size) := by
  simp [memtrack_get_size, memtrack_get_size_without_lock, hp, hs, hn]

theorem realloc_success_retargets (oracle ptr size : Nat) (f : String) (l : Nat)
    (s : MTState) (t : HashTable) (e : MemTrackEntry)
    (ho : oracle ≠ 0) (hsz : size ≠ 0) (hp : ptr ≠ 0)
    (hs : s.entries = some t) (he : ht_get t ptr = some e) :
    (memtrack_realloc false oracle ptr size f l s).1 = oracle ∧
    ∃ t2 e2, (memtrack_realloc false oracle ptr size f l s).2.entries = some t2 ∧
      ht_get t2 oracle = some e2 ∧ e2.size = size := by
  refine ⟨by simp [memtrack_realloc, memtrack_realloc_without_lock, ho, hsz], ?_⟩
  have hmain : (memtrack_realloc false oracle ptr size f l s).2 =
      memtrack_entry_update ptr oracle size f l
        { s with allocCalls := s.allocCalls ++ [size] } := by
    simp [memtrack_realloc, memtrack_realloc_without_lock, ho, hsz]
  rw [hmain]
  by_cases hpe : ptr = oracle
  · refine ⟨ht_set t ptr (resizedEntry e oracle size f l), resizedEntry e oracle size f l,
      ?_, ?_, rfl⟩
    · have he2 : ht_get t oracle = some e := by
        rw [← hpe]
        exact he
      simp [memtrack_entry_update, hp, ho, hs, he2, hpe, resizedEntry]
    · rw [← hpe]
      exact ht_get_set_self t ptr _
  · refine ⟨ht_set t oracle
        ⟨oracle, size, e.alloc_file, e.alloc_line, some f, l, e.free_file, e.free_line,
          e.is_freed⟩, _, ?_, ht_get_set_self t oracle _, rfl⟩
    simp [memtrack_entry_update, hp, ho, hs, he, hpe]

theorem free_nondebug_removes (ptr : Nat) (f : String) (l : Nat) (s : MTState)
    (t : HashTable) (e : MemTrackEntry) (hp : ptr ≠ 0) (hs : s.entries = some t)
    (he : ht_get t ptr = some e) :
    (memtrack_free false ptr f l s).entries = some (ht_delete t ptr) ∧
    (memtrack_free false ptr f l s).freeCalls = s.freeCalls ++ [ptr] := by
  constructor <;>
    simp [memtrack_free, memtrack_free_without_lock, memtrack_entry_free, hp, hs, he]

/-- C6: a successful allocate of n > 0 bytes at address p makes the size
query on p answer exactly n; resizing it to m bytes returns the new address
p2 and the size query on p2 answers m; after releasing p2 the size query on
p2 answers 0 with the not-found report.  The spec round trip is the
instance n = 64, m = 128. -/
theorem round_trip_sizes (s : MTState) (n m p p2 : Nat) (f : String)
    (hn : n ≠ 0) (hm : m ≠ 0) (hp : p ≠ 0) (hp2 : p2 ≠ 0) :
    roundTrip s n m p p2 f = (p, n, p2, m, 0) := by
  obtain ⟨h1v, h1s⟩ := malloc_success_tracks p n f 1 s hp hn
  obtain ⟨t1, ht1, hget1⟩ :=
    entry_add_spec p n f 1 { s with allocCalls := s.allocCalls ++ [n] } hp
  have ht1' : (memtrack_malloc p n f 1 s).2.entries = some t1 := by
    rw [h1s]
    exact ht1
  have hg1 : memtrack_get_size p f 2 (memtrack_malloc p n f 1 s).2 =
      (n, (memtrack_malloc p n f 1 s).2) :=
    get_size_hit p f 2 _ t1 _ hp ht1' hget1
  obtain ⟨h2v, t2, e2, ht2, hget2, he2size⟩ :=
    realloc_success_retargets p2 p m f 3 _ t1 _ hp2 hm hp ht1' hget1
  have hg2 : memtrack_get_size p2 f 4
      (memtrack_realloc false p2 p m f 3 (memtrack_malloc p n f 1 s).2).2 =
      (m, (memtrack_realloc false p2 p m f 3 (memtrack_malloc p n f 1 s).2).2) := by
    have h := get_size_hit p2 f 4 _ t2 e2 hp2 ht2 hget2
    rwa [he2size] at h
  obtain ⟨hfent, hfcalls⟩ := free_nondebug_removes p2 f 5 _ t2 e2 hp2 ht2 hget2
  have hg3 : memtrack_get_size p2 f 6
      (memtrack_free false p2 f 5
        (memtrack_realloc false p2 p m f 3 (memtrack_malloc p n f 1 s).2).2) =
      (0, logErr (memtrack_free false p2 f 5
        (memtrack_realloc false p2 p m f 3 (memtrack_malloc p n f 1 s).2).2)
        msg_no_entry_get_size) :=
    get_size_miss p2 f 6 _ (ht_delete t2 p2) hp2 hfent (ht_get_delete_self t2 p2)
  simp only [roundTrip, h1v, hg1, h2v, hg2, hg3]

/-- C6 witness: the round trip of the spec with n = 64, m = 128 at the
concrete addresses 1000 and 2000 observes the sizes 64, 128 and finally 0. -/
theorem round_trip_sizes_witness :
    roundTrip stEmpty 64 128 1000 2000 "t.c" = (1000, 64, 2000, 128, 0) :=
  round_trip_sizes stEmpty 64 128 1000 2000 "t.c" (by decide) (by decide) (by decide)
    (by decide)

end Memtrack
